import Mathlib

/-!
Verification of the AnkAi vocabulary segmentation/classification pipeline.

Shallow embedding of the Python sources in `src/backend/`:
* `vocab_manager.py`  — vocabulary registry, classification, daily allowance,
  card-status derivation;
* `article_processor.py` — sentence splitting, numeric-compound token
  splitting, comprehension statistics;
* `main.py` (`/api/article/process` endpoint) — new-word cap enforcement.

Python strings are modelled as `List Char` (sequences of Unicode codepoints),
Python `int` as `Int`, Python `dict`s as association lists in insertion order,
Python `set`s as duplicate-free lists.  External collaborators (the jieba word
breaker, pypinyin) are modelled as function parameters.
-/

set_option maxRecDepth 8192

/-- Codepoint list of a string literal (Python strings are codepoint sequences). -/
def cs (x : String) : List Char := x.data

/-- `models.VocabStatus` — the four vocabulary states. -/
inductive VocabStatus where
  | NEW
  | DUE
  | LEARNED
  | UNKNOWN
deriving DecidableEq, Repr

/-- `models.Word` — a classified vocabulary record. -/
structure Word where
  hanzi : List Char
  pinyin : List Char
  definition : List Char
  status : VocabStatus
  card_id : Option Int
  deck_name : Option (List Char)
deriving DecidableEq, Repr

/-- `VocabManager.BASIC_VOCAB` (vocab_manager.py lines 51–116), transcribed
entry by entry.  The Python value is a `set` literal; membership tests on the
duplicate-preserving list agree with membership in the set. -/
def BASIC_VOCAB : List String := [
  -- Numbers
  "零", "一", "二", "两", "三", "四", "五", "六", "七", "八", "九", "十",
  "百", "千", "万", "亿", "第", "半", "几",
  -- Pronouns
  "我", "你", "您", "他", "她", "它", "我们", "你们", "他们", "她们", "它们",
  "这", "那", "这个", "那个", "这些", "那些", "这样", "那样",
  "什么", "谁", "哪", "哪个", "哪里", "哪儿", "哪些",
  "自己", "大家", "别人", "每", "每个", "所有", "一些", "有些", "某",
  -- Particles & conjunctions
  "的", "地", "得", "了", "着", "过", "吗", "呢", "吧", "啊", "呀", "嘛", "啦",
  "和", "与", "或", "或者", "但", "但是", "因为", "所以", "如果", "虽然", "不过",
  "而", "而且", "然后", "就是", "只是", "可是", "于是", "因此", "另外",
  -- Basic verbs
  "是", "有", "在", "要", "会", "能", "可以", "想", "去", "来", "做", "说", "看", "听",
  "知道", "觉得", "喜欢", "给", "让", "把", "被", "到", "从", "用", "找", "买", "卖",
  "吃", "喝", "睡", "走", "跑", "站", "坐", "开", "关", "开始", "结束", "完", "完成",
  "变", "变化", "变成", "成为", "成", "叫", "请", "问", "回答", "帮", "帮助",
  "等", "等待", "需要", "应该", "必须", "得", "可能", "希望", "相信", "认为",
  "发现", "感觉", "记得", "忘记", "学", "学习", "工作", "生活", "住", "离开",
  -- Basic adjectives & adverbs
  "好", "大", "小", "多", "少", "新", "旧", "老", "长", "短", "高", "低", "快", "慢",
  "早", "晚", "远", "近", "难", "容易", "重要", "简单", "复杂", "一样", "不同",
  "清楚", "明白", "正确", "错误", "安全", "危险", "特别", "一般", "正常",
  "真", "假", "对", "错", "全", "满", "空", "忙", "累", "舒服",
  -- Time words
  "年", "月", "日", "号", "天", "星期", "周", "时", "分", "秒", "点", "刻",
  "今天", "明天", "昨天", "后天", "前天", "今年", "明年", "去年",
  "现在", "以前", "以后", "之前", "之后", "时候", "时间", "最近", "将来", "过去",
  "上午", "下午", "晚上", "早上", "中午", "夜里", "白天",
  "经常", "常常", "总是", "有时", "有时候", "偶尔", "从来", "已经", "刚", "刚才", "马上", "立刻",
  -- Days & months
  "星期一", "星期二", "星期三", "星期四", "星期五", "星期六", "星期天", "星期日",
  "周一", "周二", "周三", "周四", "周五", "周六", "周日", "周末",
  "一月", "二月", "三月", "四月", "五月", "六月",
  "七月", "八月", "九月", "十月", "十一月", "十二月",
  -- Measure words
  "个", "位", "只", "条", "张", "本", "件", "块", "杯", "瓶", "次", "遍", "些",
  "种", "双", "对", "套", "群", "家", "所", "座", "层", "排", "节", "份",
  -- Locations/directions
  "上", "下", "左", "右", "前", "后", "里", "外", "中", "内", "东", "西", "南", "北",
  "这里", "那里", "里面", "外面", "上面", "下面", "前面", "后面", "旁边", "中间",
  "附近", "周围", "对面", "边", "处", "地", "方",
  -- Common nouns
  "人", "家", "国", "中国", "东西", "事", "事情", "问题", "地方", "话", "字", "词",
  "路", "车", "火车", "汽车", "飞机", "公交", "地铁", "站",
  "钱", "元", "块", "毛", "分", "价格", "数", "数字", "号码",
  "名字", "年龄", "身体", "头", "手", "脚", "眼睛", "耳朵",
  "水", "饭", "菜", "肉", "鱼", "米", "面", "茶", "酒", "咖啡",
  "书", "报", "纸", "笔", "电话", "手机", "电脑", "电视", "网", "网络",
  "门", "窗", "桌子", "椅子", "床", "房间", "厨房", "厕所", "卫生间",
  "公司", "学校", "医院", "商店", "超市", "银行", "酒店", "餐厅", "机场",
  "朋友", "同学", "老师", "学生", "医生", "先生", "女士", "小姐", "孩子", "男", "女",
  "爸爸", "妈妈", "父亲", "母亲", "儿子", "女儿", "哥哥", "姐姐", "弟弟", "妹妹",
  -- Question words
  "怎么", "怎么样", "怎样", "为什么", "为何", "多少", "几", "多", "多长", "多久", "多远",
  -- Negation & degree
  "不", "没", "没有", "别", "很", "太", "非常", "最", "更", "比较", "真", "挺", "相当",
  "都", "也", "还", "就", "才", "只", "只有", "又", "再", "越", "越来越",
  -- Prepositions
  "在", "从", "到", "往", "向", "对", "给", "跟", "和", "比", "按", "按照", "根据", "关于",
  -- Other common
  "好的", "可以", "谢谢", "不客气", "对不起", "没关系", "再见", "你好",
  "当然", "一定", "肯定", "确实", "其实", "原来", "终于", "居然", "竟然",
  "首先", "然后", "最后", "同时", "另外", "例如", "比如"]

/-- `hanzi in self.BASIC_VOCAB` (vocab_manager.py line 257). -/
def basic_contains (hanzi : List Char) : Bool :=
  BASIC_VOCAB.any (fun b => b.data == hanzi)

/-- Registry lookup `self.vocab[hanzi]` / `hanzi in self.vocab`.  The registry
dict is modelled as its insertion-ordered list of `Word` values keyed by
`hanzi`. -/
def lookup_vocab (vocab : List Word) (hanzi : List Char) : Option Word :=
  vocab.find? (fun w => w.hanzi == hanzi)

/-- `CEDICT.get(hanzi, "")` (vocab_manager.py line 293): dictionary-store
lookup with the empty string as the miss fallback. -/
def lookup_definition (cedict : List (List Char × List Char)) (hanzi : List Char) :
    List Char :=
  ((cedict.find? (fun e => e.1 == hanzi)).map (·.2)).getD []

/-- `VocabManager._find_partial_match` (vocab_manager.py lines 295–312):
first registry entry strictly longer than `hanzi` that starts or ends with
`hanzi`, in registry insertion order. -/
def find_compound_match (vocab : List Word) (hanzi : List Char) : Option Word :=
  if hanzi.length < 1 then none
  else vocab.find? (fun w =>
    ¬ (w.hanzi.length ≤ hanzi.length) ∧
      (hanzi.isPrefixOf w.hanzi ∨ hanzi.isSuffixOf w.hanzi))

/-- `VocabManager.classify_word` (vocab_manager.py lines 251–289).
`gen_pinyin` stands for the external pypinyin-based `_generate_pinyin`. -/
def classify_word (gen_pinyin : List Char → List Char) (vocab : List Word)
    (cedict : List (List Char × List Char)) (hanzi : List Char) : Word :=
  match lookup_vocab vocab hanzi with
  | some w => w
  | none =>
    if basic_contains hanzi then
      { hanzi := hanzi, pinyin := gen_pinyin hanzi, definition := cs "(basic)",
        status := VocabStatus.LEARNED, card_id := none, deck_name := some (cs "basic") }
    else
      match find_compound_match vocab hanzi with
      | some m =>
        { hanzi := hanzi, pinyin := gen_pinyin hanzi,
          definition := cs "→ " ++ m.hanzi ++ cs ": " ++ m.definition,
          status := m.status, card_id := m.card_id, deck_name := m.deck_name }
      | none =>
        { hanzi := hanzi, pinyin := gen_pinyin hanzi,
          definition := lookup_definition cedict hanzi,
          status := VocabStatus.UNKNOWN, card_id := none, deck_name := none }

/-! ### Sentence splitting (`ArticleProcessor.split_sentences`) -/

/-- Membership in the sentence-terminal punctuation class `[。！？.!?]`
(article_processor.py line 133). -/
def is_term_punct (c : Char) : Bool :=
  c = '。' || c = '！' || c = '？' || c = '.' || c = '!' || c = '?'

/-- Helper reproducing `re.split(r'([。！？.!?]+)', text)`: alternating list
`[s₀, p₀, s₁, p₁, …, sₙ]` where each `pᵢ` is a maximal nonempty run of
terminal punctuation and the `sᵢ` contain none.  `seg`/`run` are the
accumulators (reversed) for the current fragment and punctuation run. -/
def sp_aux : List Char → List Char → List Char → List (List Char)
  | [], seg, [] => [seg.reverse]
  | [], seg, run => [seg.reverse, run.reverse, []]
  | c :: rest, seg, [] =>
    if is_term_punct c then sp_aux rest seg [c]
    else sp_aux rest (c :: seg) []
  | c :: rest, seg, run =>
    if is_term_punct c then sp_aux rest seg (c :: run)
    else seg.reverse :: run.reverse :: sp_aux rest [c] []

/-- `re.split(r'([。！？.!?]+)', text)` (article_processor.py line 133). -/
def split_punct (text : List Char) : List (List Char) := sp_aux text [] []

/-- Whitespace for Python's `str.strip()` over the characters this pipeline
meets: ASCII whitespace plus NBSP and the ideographic space. -/
def is_py_ws (c : Char) : Bool :=
  c = ' ' || c = '\t' || c = '\n' || c = '\r' ||
  c = '\x0b' || c = '\x0c' || c.toNat = 0xa0 || c.toNat = 0x3000

/-- Truthiness of `fragment.strip()`: a fragment is blank iff every codepoint
is whitespace (in particular the empty fragment is blank). -/
def is_blank (l : List Char) : Bool := l.all is_py_ws

/-- The re-joining loop of `split_sentences` (article_processor.py lines
135–143): pair each fragment with its following punctuation run, dropping
blank fragments (together with their run), and keep a non-blank trailing
fragment. -/
def join_pairs : List (List Char) → List (List Char)
  | [] => []
  | [last] => if is_blank last then [] else [last]
  | s₀ :: p₀ :: rest =>
    (if is_blank s₀ then [] else [s₀ ++ p₀]) ++ join_pairs rest

/-- `ArticleProcessor.split_sentences` (article_processor.py lines 130–144). -/
def split_sentences (text : List Char) : List (List Char) :=
  join_pairs (split_punct text)

/-- Every fragment position of the alternating `split_punct` output is
non-blank, except that the trailing fragment may be empty.  Exactly under
this condition `split_sentences` loses no characters. -/
def good_pieces : List (List Char) → Bool
  | [] => true
  | [last] => !is_blank last || last.isEmpty
  | s₀ :: _ :: rest => !is_blank s₀ && good_pieces rest

/-! ### Tokenization (`ArticleProcessor.segment_text` and
`_split_numeric_compounds`) -/

/-- `num_chars` (article_processor.py line 86): the Chinese numeral
characters. -/
def num_chars : List Char := cs "零一二两三四五六七八九十百千万亿"

/-- `units` (article_processor.py line 88): the unit words that may follow a
numeral. -/
def unit_words : List (List Char) :=
  [cs "分钟", cs "小时", cs "天", cs "年", cs "月", cs "日", cs "号", cs "周",
   cs "星期", cs "秒", cs "点", cs "块", cs "元", cs "个", cs "位", cs "岁"]

/-- The `split_pos` computed by the loop in `_split_numeric_compounds`
(article_processor.py lines 93–98): the length of the maximal prefix of
Chinese numeral characters. -/
def num_run_len (seg : List Char) : Nat :=
  (seg.takeWhile (fun c => num_chars.contains c)).length

/-- `ArticleProcessor._split_numeric_compounds` (article_processor.py lines
82–107).  The registry-key membership test `remaining in
self.vocab_manager.vocab` is the test against the `hanzi` keys. -/
def split_numeric_compounds (vocab : List Word) : List (List Char) → List (List Char)
  | [] => []
  | seg :: rest =>
    (if 2 < seg.length then
      let p := num_run_len seg
      if 0 < p ∧ p < seg.length then
        let remaining := seg.drop p
        if unit_words.contains remaining || vocab.any (fun w => w.hanzi == remaining) then
          [seg.take p, remaining]
        else [seg]
      else [seg]
    else [seg]) ++ split_numeric_compounds vocab rest

/-- `ArticleProcessor.segment_text` (article_processor.py lines 76–80).  The
external jieba word breaker `jieba.cut` is modelled as the parameter
`base_cut`. -/
def segment_text (vocab : List Word) (base_cut : List Char → List (List Char))
    (text : List Char) : List (List Char) :=
  split_numeric_compounds vocab (base_cut text)

/-! ### Comprehension statistics (`process_article` /
`_process_english_article`) -/

/-- Python's `\w` over the character ranges this pipeline meets: ASCII
alphanumerics, underscore, and CJK unified ideographs. -/
def is_word_char (c : Char) : Bool :=
  c.isAlphanum || c = '_' || (0x4e00 ≤ c.toNat && c.toNat ≤ 0x9fff)

/-- The counted-token test `word.hanzi.strip() and not
re.match(r'^[\s\W]+$', word.hanzi)` (article_processor.py lines 208, 327). -/
def is_counted_token (hanzi : List Char) : Bool :=
  !is_blank hanzi && !(!hanzi.isEmpty && hanzi.all (fun c => is_py_ws c || !is_word_char c))

/-- The per-sentence statistics loop (article_processor.py lines 207–211 and
326–330): threading `(total_words, known_words)` through one sentence's word
list. -/
def tally_words (ws : List Word) (acc : Nat × Nat) : Nat × Nat :=
  ws.foldl (fun tk w =>
    if is_counted_token w.hanzi then
      (tk.1 + 1,
       if w.status = VocabStatus.LEARNED ∨ w.status = VocabStatus.DUE then tk.2 + 1
       else tk.2)
    else tk) acc

/-- `(total_words, known_words)` accumulated over every sentence's word
list. -/
def tally_all (word_lists : List (List Word)) : Nat × Nat :=
  word_lists.foldl (fun acc ws => tally_words ws acc) (0, 0)

/-- Python's `round(x, 1)` modelled as exact rational rounding to one decimal
place. -/
def round_to1 (q : ℚ) : ℚ := ((round (q * 10) : ℤ) : ℚ) / 10

/-- `comprehension_percent` on the Chinese-source path (article_processor.py
lines 225 and 253): `0` when no tokens were counted. -/
def zh_comprehension_percent (word_lists : List (List Word)) : ℚ :=
  let t := tally_all word_lists
  round_to1 (if 0 < t.1 then (t.2 : ℚ) / (t.1 : ℚ) * 100 else 0)

/-- `comprehension_percent` on the English-translation path with a non-empty
translation list (article_processor.py lines 343 and 353): `100` when no
tokens were counted. -/
def en_comprehension_percent (word_lists : List (List Word)) : ℚ :=
  let t := tally_all word_lists
  round_to1 (if 0 < t.1 then (t.2 : ℚ) / (t.1 : ℚ) * 100 else 100)

/-! ### Daily new-word allowance (`VocabManager` date-keyed state) -/

/-- The process-wide daily-introduction state: `_introduced_today`,
`_introduced_date`, `_daily_new_limit` (vocab_manager.py lines 46–48).
`introduced` is a duplicate-free list modelling the Python set. -/
structure DailyState where
  introduced : List (List Char)
  date : List Char
  limit : Int
deriving DecidableEq, Repr

/-- `VocabManager._check_date_reset` (vocab_manager.py lines 343–350); the
current date `date.today().isoformat()` is passed as `today`. -/
def check_date_reset (today : List Char) (st : DailyState) : DailyState :=
  if st.date = today then st else { st with introduced := [], date := today }

/-- `VocabManager.get_remaining_new_allowance` (vocab_manager.py lines
367–371), returning the value together with the (possibly reset) state. -/
def get_remaining_new_allowance (today : List Char) (st : DailyState) :
    Int × DailyState :=
  let st' := check_date_reset today st
  (max 0 (st'.limit - st'.introduced.length), st')

/-- Addition of one word to the `_introduced_today` set. -/
def add_introduced (acc : List (List Char)) (w : List Char) : List (List Char) :=
  if w ∈ acc then acc else acc ++ [w]

/-- `VocabManager.mark_words_introduced` (vocab_manager.py lines 378–383). -/
def mark_words_introduced (today : List Char) (words : List (List Char))
    (st : DailyState) : DailyState :=
  let st' := check_date_reset today st
  { st' with introduced := words.foldl add_introduced st'.introduced }

/-- `effective_max_new` at the `/api/article/process` endpoint (main.py lines
420–423).  `request.max_new_words if request.max_new_words else
remaining_allowance` uses Python truthiness: `0` is falsy. -/
def effective_max_new (req_max : Int) (remaining : Int) : Int :=
  min (if req_max = 0 then remaining else req_max) remaining

/-! ### New-word cap enforcement (main.py lines 434–471) -/

/-- The slice of `ProcessedArticle` the endpoint's cap-enforcement block
reads and writes: the per-sentence word lists, the `new_words` list, and the
`new_count` stat. -/
structure EndpointResult where
  sentences : List (List Word)
  new_words : List Word
  new_count : Nat
deriving DecidableEq, Repr

/-- `new_word_freq` (main.py lines 437–441): occurrences of `h` as a
NEW-status token across all sentences. -/
def new_word_freq (sentences : List (List Word)) (h : List Char) : Nat :=
  (sentences.map (fun ws =>
    ws.countP (fun w => decide (w.status = VocabStatus.NEW ∧ w.hanzi = h)))).sum

/-- `sorted(result.new_words, key=freq, reverse=True)` (main.py lines
443–448): Python's sort is stable, so it coincides with stable insertion
sort by descending frequency. -/
def sort_new_desc (freq : List Char → Nat) (ws : List Word) : List Word :=
  List.insertionSort (fun a b => freq b.hanzi ≤ freq a.hanzi) ws

/-- The cap-enforcement block of the `/api/article/process` endpoint (main.py
lines 434–466). -/
def limit_new_words (cap : Nat) (r : EndpointResult) : EndpointResult :=
  if cap < r.new_words.length then
    let freq := new_word_freq r.sentences
    let sorted := sort_new_desc freq r.new_words
    let allowed := sorted.take cap
    let excess := (sorted.drop cap).map (·.hanzi)
    { sentences := r.sentences.map (fun ws => ws.map (fun w =>
        if w.hanzi ∈ excess ∧ w.status = VocabStatus.NEW then
          { w with status := VocabStatus.UNKNOWN }
        else w)),
      new_words := allowed,
      new_count := allowed.length }
  else r

/-- The endpoint tail after processing (main.py lines 434–471): enforce the
cap, then mark the surviving new words as introduced today. -/
def process_article_post (today : List Char) (st : DailyState) (cap : Nat)
    (r : EndpointResult) : EndpointResult × DailyState :=
  let r' := limit_new_words cap r
  let st' :=
    if r'.new_words.isEmpty then st
    else mark_words_introduced today (r'.new_words.map (·.hanzi)) st
  (r', st')

/-! ### Card-status derivation (vocab_manager.py) -/

/-- Status derivation in `VocabManager._extract_word_from_card`
(vocab_manager.py lines 208–213). -/
def extract_status (queue due : Int) : VocabStatus :=
  if queue = 0 then VocabStatus.NEW
  else if queue = 1 ∨ queue = 3 ∨ (queue = 2 ∧ due ≤ 0) then VocabStatus.DUE
  else VocabStatus.LEARNED

/-- Status derivation in `VocabManager.refresh_card_status`
(vocab_manager.py lines 333–338). -/
def refresh_status (queue due : Int) : VocabStatus :=
  if queue = 0 then VocabStatus.NEW
  else if queue = 1 ∨ queue = 3 ∨ (queue = 2 ∧ due ≤ 0) then VocabStatus.DUE
  else VocabStatus.LEARNED

/-- Modelled from the spec: the derivation rule as the claim states it
(`new→NEW`; `learning|relearning → DUE`; `review` with `due<=0 → DUE`;
otherwise `LEARNED`). -/
def spec_derived_status (queue due : Int) : VocabStatus :=
  if queue = 0 then VocabStatus.NEW
  else if queue = 1 ∨ queue = 3 then VocabStatus.DUE
  else if queue = 2 ∧ due ≤ 0 then VocabStatus.DUE
  else VocabStatus.LEARNED

/-- A sequence of `mark_words_introduced` calls within one logical day. -/
def apply_marks (today : List Char) (wss : List (List (List Char)))
    (st : DailyState) : DailyState :=
  wss.foldl (fun s ws => mark_words_introduced today ws s) st

/-- NEW word `A` of the spec's cap scenario. -/
def scen_A : Word := ⟨cs "甲", [], [], VocabStatus.NEW, none, none⟩

/-- NEW word `B` of the spec's cap scenario. -/
def scen_B : Word := ⟨cs "乙", [], [], VocabStatus.NEW, none, none⟩

/-- NEW word `C` of the spec's cap scenario. -/
def scen_C : Word := ⟨cs "丙", [], [], VocabStatus.NEW, none, none⟩

/-- The spec's cap scenario: three distinct new words with in-document token
frequencies `{A:5, B:1, C:3}`. -/
def scen_result : EndpointResult :=
  { sentences := [[scen_A, scen_A, scen_B, scen_C, scen_A],
                  [scen_C, scen_A, scen_A, scen_C]],
    new_words := [scen_A, scen_B, scen_C],
    new_count := 3 }

/-- A fixed date used to instantiate daily-state theorems. -/
def day0 : List Char := cs "2026-10-12"

/-- A fresh daily state on `day0` with limit 5. -/
def state0 : DailyState := { introduced := [], date := day0, limit := 5 }

/-! ## Claims -/

/-- **C6.** For every card record, the derived vocabulary status is: NEW when
the scheduler queue is the new queue (0); DUE when the queue is learning (1)
or relearning (3), or the queue is review (2) with `due <= 0`; and LEARNED in
every other case — and both the bulk deck load (`_extract_word_from_card`)
and the single-card refresh (`refresh_card_status`) derive status by this
same rule. -/
theorem c6_status_rule (queue due : Int) :
    extract_status queue due = spec_derived_status queue due ∧
    refresh_status queue due = spec_derived_status queue due := by
  unfold extract_status refresh_status spec_derived_status
  constructor <;> split_ifs <;> tauto

/-- **C10.** At the article-processing endpoint, a request budget of 0 is
falsy, so the effective cap becomes the full remaining daily allowance; and
for every request the effective cap never exceeds the remaining daily
allowance. -/
theorem c10_zero_budget_means_full_allowance (today : List Char)
    (st : DailyState) (req_max : Int) :
    effective_max_new 0 (get_remaining_new_allowance today st).1 =
      (get_remaining_new_allowance today st).1 ∧
    effective_max_new req_max (get_remaining_new_allowance today st).1 ≤
      (get_remaining_new_allowance today st).1 := by
  unfold effective_max_new
  exact ⟨by simp, min_le_right _ _⟩

/-- **C7.** For any token longer than 2 codepoints whose maximal prefix of
Chinese numeral characters is non-empty and whose remaining non-empty suffix
is in the fixed unit-word set or is a registry key, the numeric-compound pass
splits that token into exactly the numeral prefix followed by the suffix. -/
theorem c7_numeral_unit_split (vocab : List Word) (seg : List Char)
    (h1 : 2 < seg.length) (h2 : 0 < num_run_len seg)
    (h3 : num_run_len seg < seg.length)
    (h4 : (unit_words.contains (seg.drop (num_run_len seg)) ||
           vocab.any (fun w => w.hanzi == seg.drop (num_run_len seg))) = true) :
    split_numeric_compounds vocab [seg] =
      [seg.take (num_run_len seg), seg.drop (num_run_len seg)] := by
  show (if 2 < seg.length then _ else _) ++ split_numeric_compounds vocab [] = _
  rw [if_pos h1]
  show (if 0 < num_run_len seg ∧ num_run_len seg < seg.length then _ else _) ++ _ = _
  rw [if_pos ⟨h2, h3⟩, if_pos h4]
  simp [split_numeric_compounds]

/-- Witness for C7: the single token `"十五分钟"` (with `"分钟"` in the unit
set) yields `["十五", "分钟"]`, not one token. -/
theorem c7_numeral_unit_split_witness :
    (cs "十五分钟").take (num_run_len (cs "十五分钟")) = cs "十五" ∧
    (cs "十五分钟").drop (num_run_len (cs "十五分钟")) = cs "分钟" ∧
    split_numeric_compounds [] [cs "十五分钟"] =
      [(cs "十五分钟").take (num_run_len (cs "十五分钟")),
       (cs "十五分钟").drop (num_run_len (cs "十五分钟"))] :=
  ⟨by decide, by decide,
   c7_numeral_unit_split [] (cs "十五分钟") (by decide) (by decide) (by decide)
     (by decide)⟩

/-- **C1 (counterexample).** With the registry containing exactly the entry
`"火车站"` (status DUE), `classify("火车")` does *not* return status DUE: the
basic-vocabulary membership check fires first, because `"火车"` is in
`BASIC_VOCAB`. -/
theorem c1_counterexample :
    ¬ ((classify_word (fun _ => [])
          [⟨cs "火车站", [], cs "train station", VocabStatus.DUE, none, none⟩]
          [] (cs "火车")).status = VocabStatus.DUE) := by
  decide

/-- **C1 (amended).** With the registry containing exactly `"火车站"` (status
DUE), `classify("车站")` returns status DUE with a back-reference definition
`"→ 火车站: …"`; `classify("火车")` instead returns status LEARNED with
definition `"(basic)"`, because `"火车"` belongs to the basic-vocabulary set,
which is consulted before partial-compound matching. -/
theorem c1_partial_match_after_basic (gp : List Char → List Char)
    (ced : List (List Char × List Char)) (p d : List Char)
    (cid : Option Int) (dn : Option (List Char)) :
    (classify_word gp [⟨cs "火车站", p, d, VocabStatus.DUE, cid, dn⟩] ced
        (cs "车站")).status = VocabStatus.DUE ∧
    (classify_word gp [⟨cs "火车站", p, d, VocabStatus.DUE, cid, dn⟩] ced
        (cs "车站")).definition = cs "→ 火车站: " ++ d ∧
    (classify_word gp [⟨cs "火车站", p, d, VocabStatus.DUE, cid, dn⟩] ced
        (cs "火车")).status = VocabStatus.LEARNED ∧
    (classify_word gp [⟨cs "火车站", p, d, VocabStatus.DUE, cid, dn⟩] ced
        (cs "火车")).definition = cs "(basic)" :=
  ⟨rfl, rfl, rfl, rfl⟩

/-- **C9.** Lookup misses are never errors: for every text absent from the
registry, the basic-vocabulary set and all partial-compound matches,
`classify` returns a word with status UNKNOWN whose definition is the
dictionary-store entry for that text (the empty string for the empty
dictionary that a missing resource file loads to). -/
theorem c9_lookup_miss_fallback (gp : List Char → List Char)
    (vocab : List Word) (ced : List (List Char × List Char)) (hanzi : List Char)
    (h1 : lookup_vocab vocab hanzi = none)
    (h2 : basic_contains hanzi = false)
    (h3 : find_compound_match vocab hanzi = none) :
    (classify_word gp vocab ced hanzi).status = VocabStatus.UNKNOWN ∧
    (classify_word gp vocab ced hanzi).definition = lookup_definition ced hanzi ∧
    lookup_definition [] hanzi = [] := by
  refine ⟨?_, ?_, rfl⟩ <;> simp [classify_word, h1, h2, h3]

/-- Witness for C9: with the dictionary containing `"猫" -> "cat"` and an
empty registry, `classify("猫")` returns status UNKNOWN with definition
`"cat"`. -/
theorem c9_lookup_miss_fallback_witness :
    (classify_word (fun _ => []) [] [(cs "猫", cs "cat")] (cs "猫")).status =
      VocabStatus.UNKNOWN ∧
    (classify_word (fun _ => []) [] [(cs "猫", cs "cat")] (cs "猫")).definition =
      cs "cat" := by
  have h := c9_lookup_miss_fallback (fun _ => []) [] [(cs "猫", cs "cat")]
    (cs "猫") rfl (by decide) rfl
  exact ⟨h.1, h.2.1.trans (by decide)⟩

/-- Marking words on the current day never changes the stored date or the
daily limit. -/
theorem apply_marks_same_day (today : List Char) :
    ∀ (wss : List (List (List Char))) (st : DailyState), st.date = today →
      (apply_marks today wss st).date = today ∧
      (apply_marks today wss st).limit = st.limit
  | [], st, h => ⟨h, rfl⟩
  | ws :: wss, st, h => by
    have hmark : (mark_words_introduced today ws st).date = today ∧
        (mark_words_introduced today ws st).limit = st.limit := by
      unfold mark_words_introduced check_date_reset
      rw [if_pos h]
      exact ⟨h, rfl⟩
    have ih := apply_marks_same_day today wss (mark_words_introduced today ws st) hmark.1
    exact ⟨ih.1, ih.2.trans hmark.2⟩

/-- **C5.** Within one logical day, after any sequence of
`mark_words_introduced` calls the remaining allowance equals
`max(0, daily_limit - |introduced_today|)` (and so is never negative), and
the stored date never changes; when an operation observes a date change, the
introduced set is reset to empty exactly once (a second observation on the
same day is a no-op). -/
theorem c5_daily_allowance_invariant (today : List Char) (st stB : DailyState)
    (wss : List (List (List Char))) (h : st.date = today) (hB : stB.date ≠ today) :
    (get_remaining_new_allowance today (apply_marks today wss st)).1 =
      max 0 (st.limit - (apply_marks today wss st).introduced.length) ∧
    (apply_marks today wss st).date = today ∧
    0 ≤ (get_remaining_new_allowance today (apply_marks today wss st)).1 ∧
    (check_date_reset today stB).introduced = [] ∧
    (check_date_reset today stB).date = today ∧
    check_date_reset today (check_date_reset today stB) = check_date_reset today stB := by
  obtain ⟨hd, hl⟩ := apply_marks_same_day today wss st h
  have hfix : check_date_reset today (apply_marks today wss st) =
      apply_marks today wss st := by
    unfold check_date_reset
    rw [if_pos hd]
  refine ⟨?_, hd, ?_, ?_, ?_, ?_⟩
  · unfold get_remaining_new_allowance
    rw [hfix]
    dsimp only
    rw [hl]
  · unfold get_remaining_new_allowance
    dsimp only
    exact le_max_left 0 _
  · unfold check_date_reset
    rw [if_neg hB]
  · unfold check_date_reset
    rw [if_neg hB]
  · simp [check_date_reset, hB]

/-- Witness for C5 at a concrete state: two mark calls on one day, plus a
state from the previous day that gets reset exactly once. -/
theorem c5_daily_allowance_invariant_witness :
    (get_remaining_new_allowance day0
        (apply_marks day0 [[cs "a", cs "b"], [cs "a"]] state0)).1 =
      max 0 (state0.limit -
        (apply_marks day0 [[cs "a", cs "b"], [cs "a"]] state0).introduced.length) ∧
    (apply_marks day0 [[cs "a", cs "b"], [cs "a"]] state0).date = day0 ∧
    0 ≤ (get_remaining_new_allowance day0
        (apply_marks day0 [[cs "a", cs "b"], [cs "a"]] state0)).1 ∧
    (check_date_reset day0
        (⟨[cs "x"], cs "2026-10-11", 5⟩ : DailyState)).introduced = [] ∧
    (check_date_reset day0 (⟨[cs "x"], cs "2026-10-11", 5⟩ : DailyState)).date = day0 ∧
    check_date_reset day0
        (check_date_reset day0 (⟨[cs "x"], cs "2026-10-11", 5⟩ : DailyState)) =
      check_date_reset day0 (⟨[cs "x"], cs "2026-10-11", 5⟩ : DailyState) :=
  c5_daily_allowance_invariant day0 state0 ⟨[cs "x"], cs "2026-10-11", 5⟩
    [[cs "a", cs "b"], [cs "a"]] rfl (by decide)

/-- The numeric-compound pass never drops or duplicates characters: its
output concatenates to the same text as its input segment list. -/
theorem split_numeric_compounds_flatten (vocab : List Word) :
    ∀ segs : List (List Char),
      (split_numeric_compounds vocab segs).flatten = segs.flatten
  | [] => rfl
  | seg :: rest => by
    simp only [split_numeric_compounds]
    rw [List.flatten_append, split_numeric_compounds_flatten vocab rest,
      List.flatten_cons]
    congr 1
    split_ifs <;> simp [List.take_append_drop]

/-- **C8.** Whenever the base word breaker covers the sentence (its tokens
concatenate to the input, which is jieba's contract), `segment_text` — the
base cut followed by the numeric-compound pass — produces tokens whose
concatenation equals the original sentence text. -/
theorem c8_tokenize_concat (vocab : List Word)
    (base_cut : List Char → List (List Char)) (text : List Char)
    (h : (base_cut text).flatten = text) :
    (segment_text vocab base_cut text).flatten = text := by
  unfold segment_text
  rw [split_numeric_compounds_flatten, h]

/-- Witness for C8 at a concrete base segmentation of `"十五分钟"`. -/
theorem c8_tokenize_concat_witness :
    ((fun t => [t]) (cs "十五分钟")).flatten = cs "十五分钟" ∧
    (segment_text [] (fun t => [t]) (cs "十五分钟")).flatten = cs "十五分钟" :=
  ⟨by decide, c8_tokenize_concat [] (fun t => [t]) (cs "十五分钟") (by decide)⟩

/-- The punctuation split never loses characters: the alternating pieces
concatenate back to the input. -/
theorem sp_aux_flatten :
    ∀ (rest seg run : List Char),
      (sp_aux rest seg run).flatten = seg.reverse ++ run.reverse ++ rest
  | [], seg, [] => by simp [sp_aux]
  | [], seg, r :: rs => by simp [sp_aux]
  | c :: rest, seg, [] => by
    by_cases hc : is_term_punct c = true
    · rw [show sp_aux (c :: rest) seg [] = sp_aux rest seg [c] from by
        simp [sp_aux, hc]]
      rw [sp_aux_flatten rest seg [c]]
      simp
    · rw [show sp_aux (c :: rest) seg [] = sp_aux rest (c :: seg) [] from by
        simp [sp_aux, hc]]
      rw [sp_aux_flatten rest (c :: seg) []]
      simp
  | c :: rest, seg, r :: rs => by
    by_cases hc : is_term_punct c = true
    · rw [show sp_aux (c :: rest) seg (r :: rs) = sp_aux rest seg (c :: r :: rs) from by
        simp [sp_aux, hc]]
      rw [sp_aux_flatten rest seg (c :: r :: rs)]
      simp
    · rw [show sp_aux (c :: rest) seg (r :: rs) =
          seg.reverse :: (r :: rs).reverse :: sp_aux rest [c] [] from by
        simp [sp_aux, hc]]
      simp only [List.flatten_cons]
      rw [sp_aux_flatten rest [c] []]
      simp

/-- `re.split` with a captured group is lossless. -/
theorem split_punct_flatten (text : List Char) :
    (split_punct text).flatten = text := by
  unfold split_punct
  rw [sp_aux_flatten]
  simp

/-- When every fragment of the punctuation split is non-blank (the trailing
one may be empty), the re-joining loop concatenates to the full split. -/
theorem join_pairs_flatten_of_good :
    ∀ ps : List (List Char), good_pieces ps = true →
      (join_pairs ps).flatten = ps.flatten
  | [], _ => rfl
  | [last], h => by
    unfold good_pieces at h
    unfold join_pairs
    by_cases hb : is_blank last = true
    · rw [hb] at h
      simp only [Bool.not_true, Bool.false_or] at h
      rw [if_pos hb]
      simp [List.isEmpty_iff.mp h]
    · rw [if_neg hb]
  | s₀ :: p₀ :: rest, h => by
    unfold good_pieces at h
    rw [Bool.and_eq_true] at h
    obtain ⟨h1, h2⟩ := h
    unfold join_pairs
    rw [if_neg (by simp_all)]
    rw [List.flatten_append, join_pairs_flatten_of_good rest h2]
    simp

/-- **C3 (counterexample).** Concatenating the sentences returned by
`split_sentences` does not always reproduce the input: on the input `"。"`
(one sentence-terminal punctuation mark, no whitespace at all, so any
whitespace normalization is the identity) the result is the empty list and
the punctuation character is dropped. -/
theorem c3_counterexample :
    (split_sentences (cs "。")).flatten = [] ∧
    cs "。" ≠ [] ∧
    (cs "。").all (fun c => !is_py_ws c) = true := by
  refine ⟨by decide, by decide, by decide⟩

/-- **C3 (amended).** Concatenating the sentences returned by
`split_sentences` yields the original text exactly when no punctuation run is
preceded by a blank (whitespace-only or empty) fragment and the trailing
fragment is non-blank or empty; blank fragments are dropped together with
their attached punctuation run, so on other inputs characters are lost. -/
theorem c3_sentence_concat (text : List Char)
    (h : good_pieces (split_punct text) = true) :
    (split_sentences text).flatten = text := by
  unfold split_sentences
  rw [join_pairs_flatten_of_good (split_punct text) h, split_punct_flatten]

/-- Witness for C3 on a concrete two-sentence text. -/
theorem c3_sentence_concat_witness :
    good_pieces (split_punct (cs "你好。再见！")) = true ∧
    (split_sentences (cs "你好。再见！")).flatten = cs "你好。再见！" :=
  ⟨by decide, c3_sentence_concat (cs "你好。再见！") (by decide)⟩

/-- The statistics loop preserves `known_words ≤ total_words`. -/
theorem tally_words_le (ws : List Word) :
    ∀ acc : Nat × Nat, acc.2 ≤ acc.1 →
      (tally_words ws acc).2 ≤ (tally_words ws acc).1 := by
  induction ws with
  | nil => exact fun acc h => h
  | cons w ws ih =>
    intro acc h
    unfold tally_words at ih ⊢
    rw [List.foldl_cons]
    apply ih
    dsimp only
    split_ifs <;> (try dsimp only) <;> omega

/-- Over a whole document, `known_words ≤ total_words`. -/
theorem tally_all_le (wls : List (List Word)) :
    (tally_all wls).2 ≤ (tally_all wls).1 := by
  suffices h : ∀ acc : Nat × Nat, acc.2 ≤ acc.1 →
      ((wls.foldl (fun acc ws => tally_words ws acc) acc).2 ≤
       (wls.foldl (fun acc ws => tally_words ws acc) acc).1) by
    exact h (0, 0) le_rfl
  induction wls with
  | nil => exact fun acc h => h
  | cons ws wls ih =>
    intro acc h
    rw [List.foldl_cons]
    exact ih _ (tally_words_le ws acc h)

/-- Rounding to one decimal preserves nonnegativity. -/
theorem round_to1_nonneg {q : ℚ} (h0 : 0 ≤ q) : 0 ≤ round_to1 q := by
  unfold round_to1
  have h1 : (0 : ℤ) ≤ round (q * 10) := by
    rw [round_eq]
    refine Int.le_floor.mpr ?_
    push_cast
    linarith
  have h2 : (0 : ℚ) ≤ ((round (q * 10) : ℤ) : ℚ) := by exact_mod_cast h1
  exact div_nonneg h2 (by norm_num)

/-- Rounding to one decimal preserves the upper bound 100. -/
theorem round_to1_le_100 {q : ℚ} (h : q ≤ 100) : round_to1 q ≤ 100 := by
  unfold round_to1
  have h1 : round (q * 10) ≤ 1000 := by
    rw [round_eq]
    have hm : q * 10 + 1 / 2 ≤ 1 / 2 + (1000 : ℤ) := by push_cast; linarith
    have h2 := Int.floor_mono hm
    rw [Int.floor_add_int] at h2
    have h3 : ⌊(1 / 2 : ℚ)⌋ = 0 := by norm_num [Int.floor_eq_zero_iff]
    omega
  have h2 : ((round (q * 10) : ℤ) : ℚ) ≤ 1000 := by exact_mod_cast h1
  rw [div_le_iff₀ (by norm_num : (0 : ℚ) < 10)]
  linarith

/-- **C2 (amended).** For every document, `comprehension_percent` lies in
[0, 100] on both the Chinese-source path and the English-translation path;
when the total counted tokens is 0 it equals exactly 0 on the Chinese path,
but equals 100 (not 0) on the English-translation path that computed a
non-empty translation list. -/
theorem c2_comprehension_percent (wls : List (List Word)) :
    0 ≤ zh_comprehension_percent wls ∧ zh_comprehension_percent wls ≤ 100 ∧
    0 ≤ en_comprehension_percent wls ∧ en_comprehension_percent wls ≤ 100 ∧
    ((tally_all wls).1 = 0 → zh_comprehension_percent wls = 0) ∧
    ((tally_all wls).1 = 0 → en_comprehension_percent wls = 100) := by
  have hle := tally_all_le wls
  unfold zh_comprehension_percent en_comprehension_percent
  by_cases ht : 0 < (tally_all wls).1
  · simp only [if_pos ht]
    have ht' : (0 : ℚ) < ((tally_all wls).1 : ℚ) := by exact_mod_cast ht
    have hq0 : 0 ≤ ((tally_all wls).2 : ℚ) / ((tally_all wls).1 : ℚ) * 100 := by
      positivity
    have hq100 : ((tally_all wls).2 : ℚ) / ((tally_all wls).1 : ℚ) * 100 ≤ 100 := by
      rw [div_mul_eq_mul_div, div_le_iff₀ ht']
      have hc : ((tally_all wls).2 : ℚ) ≤ ((tally_all wls).1 : ℚ) := by
        exact_mod_cast hle
      linarith
    exact ⟨round_to1_nonneg hq0, round_to1_le_100 hq100,
      round_to1_nonneg hq0, round_to1_le_100 hq100,
      fun h0 => absurd h0 (by omega), fun h0 => absurd h0 (by omega)⟩
  · simp only [if_neg ht]
    have r0 : round_to1 0 = 0 := by
      unfold round_to1
      norm_num
    have r100 : round_to1 100 = 100 := by
      unfold round_to1
      rw [show (100 : ℚ) * 10 = ((1000 : ℤ) : ℚ) by norm_num, round_intCast]
      norm_num
    exact ⟨by rw [r0], by rw [r0]; norm_num, by rw [r100]; norm_num,
      by rw [r100], fun _ => r0, fun _ => r100⟩

/-- Witness for C2 at the empty document. -/
theorem c2_comprehension_percent_witness :
    0 ≤ zh_comprehension_percent [] ∧ zh_comprehension_percent [] ≤ 100 ∧
    0 ≤ en_comprehension_percent [] ∧ en_comprehension_percent [] ≤ 100 ∧
    ((tally_all ([] : List (List Word))).1 = 0 → zh_comprehension_percent [] = 0) ∧
    ((tally_all ([] : List (List Word))).1 = 0 → en_comprehension_percent [] = 100) :=
  c2_comprehension_percent []

/-- **C2 (counterexample).** A document on the English-translation path whose
only token is the punctuation mark `"。"` has 0 counted tokens, yet its
`comprehension_percent` is 100, not 0 — refuting the claim's zero case for
the English path. -/
theorem c2_counterexample :
    (tally_all [[⟨cs "。", [], [], VocabStatus.LEARNED, none, none⟩]]).1 = 0 ∧
    en_comprehension_percent [[⟨cs "。", [], [], VocabStatus.LEARNED, none, none⟩]] = 100 ∧
    (100 : ℚ) ≠ 0 := by
  refine ⟨by decide, ?_, by norm_num⟩
  unfold en_comprehension_percent
  rw [show tally_all [[⟨cs "。", [], [], VocabStatus.LEARNED, none, none⟩]] = (0, 0)
    from by decide]
  norm_num
  unfold round_to1
  rw [show (100 : ℚ) * 10 = ((1000 : ℤ) : ℚ) by norm_num, round_intCast]
  norm_num

/-- Everything passed to `mark_words_introduced` (and everything already
present) ends up in the introduced set. -/
theorem mem_foldl_add_introduced :
    ∀ (ws : List (List Char)) (acc : List (List Char)) (x : List Char),
      (x ∈ acc ∨ x ∈ ws) → x ∈ ws.foldl add_introduced acc
  | [], acc, x, h => by
    rcases h with h | h
    · simpa using h
    · simp at h
  | w :: ws, acc, x, h => by
    rw [List.foldl_cons]
    apply mem_foldl_add_introduced ws _ x
    rcases h with h | h
    · left
      unfold add_introduced
      split_ifs with hw
      · exact h
      · exact List.mem_append_left _ h
    · rcases List.mem_cons.mp h with h | h
      · left
        unfold add_introduced
        split_ifs with hw
        · exact h ▸ hw
        · exact List.mem_append_right _ (by simp [h])
      · exact Or.inr h

/-- **C4.** When a document's distinct NEW-word count exceeds the effective
allowance, the endpoint keeps exactly the top-`cap` new words of the stable
descending frequency sort (so every kept word's in-document frequency is at
least every dropped word's), keeps only words that were in the original
`new_words`, updates the `new_count` stat, demotes every NEW token occurrence
of a dropped word to UNKNOWN in every sentence's word list (leaving all other
tokens unchanged), and marks each kept word as introduced today. -/
theorem c4_new_word_cap (today : List Char) (st : DailyState) (cap : Nat)
    (res : EndpointResult) (hlen : cap < res.new_words.length) :
    (process_article_post today st cap res).1.new_words =
      (sort_new_desc (new_word_freq res.sentences) res.new_words).take cap ∧
    (process_article_post today st cap res).1.new_words.length = cap ∧
    (process_article_post today st cap res).1.new_count = cap ∧
    ((sort_new_desc (new_word_freq res.sentences) res.new_words).drop cap).all
      (fun v => ((sort_new_desc (new_word_freq res.sentences) res.new_words).take cap).all
        (fun w => decide (new_word_freq res.sentences v.hanzi ≤
          new_word_freq res.sentences w.hanzi))) = true ∧
    (process_article_post today st cap res).1.new_words.all
      (fun w => decide (w ∈ res.new_words)) = true ∧
    (process_article_post today st cap res).1.sentences =
      res.sentences.map (fun ws => ws.map (fun w =>
        if w.hanzi ∈ ((sort_new_desc (new_word_freq res.sentences)
              res.new_words).drop cap).map (·.hanzi) ∧
            w.status = VocabStatus.NEW then
          { w with status := VocabStatus.UNKNOWN }
        else w)) ∧
    (process_article_post today st cap res).1.new_words.all
      (fun w => decide (w.hanzi ∈ (process_article_post today st cap res).2.introduced)) =
      true := by
  have hnw : (process_article_post today st cap res).1.new_words =
      (sort_new_desc (new_word_freq res.sentences) res.new_words).take cap := by
    show (limit_new_words cap res).new_words = _
    unfold limit_new_words
    rw [if_pos hlen]
  have hnw' : (limit_new_words cap res).new_words =
      (sort_new_desc (new_word_freq res.sentences) res.new_words).take cap := hnw
  have hslen : (sort_new_desc (new_word_freq res.sentences) res.new_words).length =
      res.new_words.length := by
    unfold sort_new_desc
    exact List.length_insertionSort _ _
  have hs : List.Sorted (fun a b : Word =>
      new_word_freq res.sentences b.hanzi ≤ new_word_freq res.sentences a.hanzi)
      (sort_new_desc (new_word_freq res.sentences) res.new_words) := by
    unfold sort_new_desc
    letI : IsTotal Word (fun a b : Word =>
        new_word_freq res.sentences b.hanzi ≤ new_word_freq res.sentences a.hanzi) :=
      ⟨fun a b => le_total _ _⟩
    letI : IsTrans Word (fun a b : Word =>
        new_word_freq res.sentences b.hanzi ≤ new_word_freq res.sentences a.hanzi) :=
      ⟨fun a b c hab hbc => le_trans hbc hab⟩
    exact List.sorted_insertionSort _ _
  refine ⟨hnw, ?_, ?_, ?_, ?_, ?_, ?_⟩
  · rw [hnw, List.length_take, hslen]
    omega
  · show (limit_new_words cap res).new_count = cap
    unfold limit_new_words
    rw [if_pos hlen]
    show ((sort_new_desc (new_word_freq res.sentences) res.new_words).take cap).length = cap
    rw [List.length_take, hslen]
    omega
  · simp only [List.all_eq_true, decide_eq_true_eq]
    intro v hv w hw
    exact hs.rel_of_mem_take_of_mem_drop hw hv
  · rw [hnw]
    simp only [List.all_eq_true, decide_eq_true_eq]
    intro w hw
    have h2 := List.take_subset cap _ hw
    unfold sort_new_desc at h2
    exact (List.mem_insertionSort _).mp h2
  · show (limit_new_words cap res).sentences = _
    unfold limit_new_words
    rw [if_pos hlen]
  · rw [hnw]
    simp only [List.all_eq_true, decide_eq_true_eq]
    intro w hw
    show w.hanzi ∈
      (if (limit_new_words cap res).new_words.isEmpty then st
       else mark_words_introduced today
         ((limit_new_words cap res).new_words.map (·.hanzi)) st).introduced
    rw [hnw']
    by_cases hcap :
        ((sort_new_desc (new_word_freq res.sentences) res.new_words).take cap).isEmpty
    · rw [List.isEmpty_iff] at hcap
      rw [hcap] at hw
      simp at hw
    · rw [if_neg (by simp [hcap])]
      unfold mark_words_introduced
      apply mem_foldl_add_introduced
      exact Or.inr (List.mem_map_of_mem _ hw)

/-- Witness for C4: cap 2 with three distinct new words of frequencies
`{甲:5, 乙:1, 丙:3}` — the kept set is `{甲, 丙}`, `乙`'s token occurrence is
re-tagged UNKNOWN, and the kept words are marked introduced. -/
theorem c4_new_word_cap_witness :
    ((process_article_post day0 state0 2 scen_result).1.new_words =
      (sort_new_desc (new_word_freq scen_result.sentences) scen_result.new_words).take 2 ∧
    (process_article_post day0 state0 2 scen_result).1.new_words.length = 2 ∧
    (process_article_post day0 state0 2 scen_result).1.new_count = 2 ∧
    ((sort_new_desc (new_word_freq scen_result.sentences) scen_result.new_words).drop 2).all
      (fun v => ((sort_new_desc (new_word_freq scen_result.sentences) scen_result.new_words).take 2).all
        (fun w => decide (new_word_freq scen_result.sentences v.hanzi ≤
          new_word_freq scen_result.sentences w.hanzi))) = true ∧
    (process_article_post day0 state0 2 scen_result).1.new_words.all
      (fun w => decide (w ∈ scen_result.new_words)) = true ∧
    (process_article_post day0 state0 2 scen_result).1.sentences =
      scen_result.sentences.map (fun ws => ws.map (fun w =>
        if w.hanzi ∈ ((sort_new_desc (new_word_freq scen_result.sentences)
              scen_result.new_words).drop 2).map (·.hanzi) ∧
            w.status = VocabStatus.NEW then
          { w with status := VocabStatus.UNKNOWN }
        else w)) ∧
    (process_article_post day0 state0 2 scen_result).1.new_words.all
      (fun w => decide (w.hanzi ∈ (process_article_post day0 state0 2 scen_result).2.introduced)) =
      true) ∧
    (process_article_post day0 state0 2 scen_result).1.new_words = [scen_A, scen_C] ∧
    (process_article_post day0 state0 2 scen_result).1.sentences =
      [[scen_A, scen_A, { scen_B with status := VocabStatus.UNKNOWN }, scen_C, scen_A],
       [scen_C, scen_A, scen_A, scen_C]] ∧
    (process_article_post day0 state0 2 scen_result).2.introduced = [cs "甲", cs "丙"] :=
  ⟨c4_new_word_cap day0 state0 2 scen_result (by decide), by decide, by decide, by decide⟩
